import Mathlib

/-!
Shallow embedding of the watchdog-http scheduling and alerting core
(`src/worker/main.py`, `src/telegram/notifier.py`, with the data model of
`src/models/monitor.py`, `src/models/resultlog.py`, `src/models/user.py`).

Time is modelled as natural numbers counting milliseconds since an epoch;
`datetime.replace(second=0, microsecond=0)` becomes truncation to a multiple
of 60000 ms, and `timedelta(seconds=s)` becomes `s * 1000` ms.  Database
tables are lists of rows; SQL `UPDATE ... WHERE id = ...` statements become
maps over those lists guarded by the id; Redis job enqueues become elements
appended to an explicit job list.
-/

namespace Watchdog

/-- Row of the `monitors` table (`src/models/monitor.py`). `name`, `headers`,
`body` and `last_check_status` are nullable columns, hence `Option`.
`interval` is in seconds; `next_check_at` is a timestamp in milliseconds. -/
structure Monitor where
  id : Nat
  user_id : Nat
  name : Option String
  url : String
  method : String
  headers : Option (List (String × String))
  body : Option String
  interval : Nat
  is_active : Bool
  next_check_at : Nat
  last_check_status : Option Bool
  deriving Repr, DecidableEq

/-- Row of the `users` table (`src/models/user.py`), restricted to the fields
the worker reads. `telegram_chat_id` is nullable. -/
structure User where
  id : Nat
  username : String
  telegram_chat_id : Option Nat
  deriving Repr, DecidableEq

/-- Row of the `result_logs` table (`src/models/resultlog.py`). `status_code`
and `error_message` are nullable. `start_time` is a timestamp in
milliseconds, `duration_ms` a duration in milliseconds. -/
structure ResultLog where
  monitor_id : Nat
  start_time : Nat
  duration_ms : Nat
  status_code : Option Nat
  is_success : Bool
  error_message : Option String
  deriving Repr, DecidableEq

/-- A job placed on the arq queue by `ctx["redis"].enqueue_job(...)`: the job
name together with its arguments, as enqueued in `src/worker/main.py`. -/
inductive Job where
  | check_monitor (monitor_id : Nat)
  | send_alert_http_error (monitor_id : Nat)
  | send_alert_exception (monitor_id : Nat) (alert_type : String)
      (error_message : Option String)
  deriving Repr, DecidableEq

/-- Truncation of a millisecond timestamp to its minute boundary: the model of
`now.replace(second=0, microsecond=0)` in `get_next_aligned_time`. -/
def alignToMinute (t : Nat) : Nat :=
  t / 60000 * 60000

/-- `get_next_aligned_time` (src/worker/main.py lines 20-24): the current time
truncated to the minute plus the interval. The wall clock read by
`datetime.now` is passed in explicitly as `now`. -/
def get_next_aligned_time (now : Nat) (interval_seconds : Nat) : Nat :=
  alignToMinute now + interval_seconds * 1000

/-- The scheduler's due filter (src/worker/main.py lines 322-328):
`Monitor.is_active == True AND Monitor.next_check_at <= now`. -/
def isDue (now : Nat) (m : Monitor) : Bool :=
  m.is_active && m.next_check_at ≤ now

/-- The batch selected by one tick: the due monitors, capped by
`.limit(100)`. -/
def selectedMonitors (now : Nat) (monitors : List Monitor) : List Monitor :=
  (monitors.filter (isDue now)).take 100

/-- One SQL `UPDATE monitors SET next_check_at = v WHERE id = i`. -/
def setNextCheckAt (rows : List Monitor) (i : Nat) (v : Nat) : List Monitor :=
  rows.map (fun r => if r.id = i then { r with next_check_at := v } else r)

/-- `scheduler` (src/worker/main.py lines 312-357): select up to 100 active
due monitors, enqueue a `check_monitor` job per selected monitor, and set
each selected monitor's `next_check_at` to `get_next_aligned_time now
interval`. Returns the updated table and the enqueued jobs in order. -/
def scheduler (now : Nat) (monitors : List Monitor) :
    List Monitor × List Job :=
  let selected := selectedMonitors now monitors
  let jobs := selected.map (fun m => Job.check_monitor m.id)
  let monitors' := selected.foldl
    (fun rows m => setNextCheckAt rows m.id (get_next_aligned_time now m.interval))
    monitors
  (monitors', jobs)

/-- Outcome of the single `http_client.request` call in `check_monitor`
(src/worker/main.py lines 219-243): either a response with a status code, or
one of the three caught httpx exception classes in catch order
(`TimeoutException`, `ConnectError`, `RequestError`), carrying `str(e)`. -/
inductive ProbeResult where
  | responded (status_code : Nat)
  | timeout
  | connectError (e : String)
  | requestError (e : String)
  deriving Repr, DecidableEq

/-- The `alert_type` string and `error_message` set by the exception handlers
of `check_monitor` (lines 230-243); `none` when a response was received. -/
def errorInfo : ProbeResult → Option (String × String)
  | .responded _ => none
  | .timeout => some ("timeout", "Timeout: the site did not respond within 10 seconds")
  | .connectError e => some ("connection", "Connection error: " ++ e)
  | .requestError e => some ("request", "Request error: " ++ e)

/-- The `status_code` local of `check_monitor` after the try/except block:
`None` unless a response was received. -/
def probeStatusCode : ProbeResult → Option Nat
  | .responded c => some c
  | _ => none

/-- The `is_success` local of `check_monitor`: `200 <= status_code < 400`
when a response was received, otherwise its initial value `False`. -/
def probeIsSuccess : ProbeResult → Bool
  | .responded c => 200 ≤ c && c < 400
  | _ => false

/-- The dict returned by `check_monitor`: either one of the two skip results
or the final `"status": "completed"` dict (lines 204-210 and 298-305). -/
inductive CheckReturn where
  | skipped (reason : String)
  | completed (monitor_id : Nat) (url : String) (is_success : Bool)
      (status_code : Option Nat) (duration_ms : Nat)
  deriving Repr, DecidableEq

/-- Everything `check_monitor` leaves behind: the monitors table after its
UPDATE, the result_logs table after its INSERT, the jobs it enqueued, and
its return value. -/
structure CheckEffect where
  monitors : List Monitor
  logs : List ResultLog
  enqueued : List Job
  ret : CheckReturn
  deriving Repr, DecidableEq

/-- One SQL `UPDATE monitors SET last_check_status = b WHERE id = i`
(src/worker/main.py lines 262-266). -/
def setLastCheckStatus (rows : List Monitor) (i : Nat) (b : Bool) : List Monitor :=
  rows.map (fun r => if r.id = i then { r with last_check_status := some b } else r)

/-- `check_monitor` (src/worker/main.py lines 192-305). The network call's
outcome is passed in as `probe`; the two wall-clock reads become
`start_time` and `duration_ms` (their difference in whole ms). Looks up the
monitor, skips when missing or paused; otherwise inserts one ResultLog row,
updates `last_check_status`, and enqueues at most one alert job: an
exception alert when an exception was caught, else an HTTP-error alert when
`not is_success and status_code is not None`. -/
def check_monitor (monitors : List Monitor) (logs : List ResultLog)
    (monitor_id : Nat) (probe : ProbeResult) (start_time : Nat)
    (duration_ms : Nat) : CheckEffect :=
  match (monitors.filter (fun m => m.id = monitor_id)).head? with
  | none => ⟨monitors, logs, [], .skipped "not_found"⟩
  | some monitor =>
    if !monitor.is_active then
      ⟨monitors, logs, [], .skipped "paused"⟩
    else
      let status_code := probeStatusCode probe
      let is_success := probeIsSuccess probe
      let error_message := (errorInfo probe).map (·.2)
      let log_entry : ResultLog :=
        ⟨monitor_id, start_time, duration_ms, status_code, is_success, error_message⟩
      let monitors' := setLastCheckStatus monitors monitor_id is_success
      let jobs :=
        match errorInfo probe with
        | some (alert_type, msg) =>
          [Job.send_alert_exception monitor_id alert_type (some msg)]
        | none =>
          if !is_success && status_code.isSome then
            [Job.send_alert_http_error monitor_id]
          else
            []
      ⟨monitors', logs ++ [log_entry], jobs,
        .completed monitor_id monitor.url is_success status_code duration_ms⟩

/-- `AlertType` (src/telegram/notifier.py lines 8-14): the five alert
kinds. -/
inductive AlertType where
  | HTTP_ERROR
  | TIMEOUT
  | CONNECTION_ERROR
  | REQUEST_ERROR
  | RECOVERY
  deriving Repr, DecidableEq

/-- `PREDEFINED_MESSAGES` (src/telegram/notifier.py lines 72-100): the dict
of message templates, as raw template strings with their `{...}`
placeholders. The dict has entries for exactly four alert kinds; a lookup
for any other kind (in particular `RECOVERY`) yields `none`, modelling
`dict.get` returning `None`. -/
def PREDEFINED_MESSAGES : AlertType → Option String
  | .HTTP_ERROR => some
      ("🔴 <b>HTTP Ошибка</b>\n\n📍 {monitor_name}\n🔗 {url}\n\n" ++
       "Код ответа: {status_code}{duration_part}")
  | .TIMEOUT => some
      ("⏱️ <b>Таймаут</b>\n\n📍 {monitor_name}\n🔗 {url}\n\n" ++
       "Сайт не ответил в течение установленного времени ожидания.")
  | .CONNECTION_ERROR => some
      ("🔌 <b>Ошибка подключения</b>\n\n📍 {monitor_name}\n🔗 {url}\n\n" ++
       "Не удалось установить соединение с сервером.\n" ++
       "Возможные причины: сервер недоступен, проблемы с DNS, сеть.")
  | .REQUEST_ERROR => some
      ("❌ <b>Ошибка запроса</b>\n\n📍 {monitor_name}\n🔗 {url}\n\n" ++
       "Произошла ошибка при выполнении запроса:\n{error}")
  | .RECOVERY => none

/-- Python truthiness of an optional string: `None` and `""` are falsy. -/
def strOrDefault (v : Option String) (dflt : String) : String :=
  match v with
  | some s => if s = "" then dflt else s
  | none => dflt

/-- The `{status_code}` substitution `status_code or "?"`: `None` and `0`
are falsy, any other int renders as its decimal string. -/
def statusCodeText (status_code : Option Nat) : String :=
  match status_code with
  | some c => if c = 0 then "?" else toString c
  | none => "?"

/-- The `duration_part` local of `get_predefined_message` (line 115):
a response-time line when `duration_ms` is truthy (non-`None` and nonzero),
else the empty string. -/
def durationPart (duration_ms : Option Nat) : String :=
  match duration_ms with
  | some d => if d = 0 then "" else "\n⏱ Время ответа: " ++ toString d ++ "ms"
  | none => ""

/-- `get_predefined_message` (src/telegram/notifier.py lines 103-123): pick
the template for the alert type (falling back to the generic problem
message), then substitute the keyword arguments as `str.format` does —
simultaneously, each placeholder replaced by its argument's rendering. The
substitution is written out per fixed template. -/
def get_predefined_message (alert_type : AlertType) (monitor_name : String)
    (url : String) (error : Option String) (status_code : Option Nat)
    (duration_ms : Option Nat) : String :=
  let name := strOrDefault (some monitor_name) "Noname"
  match alert_type with
  | .HTTP_ERROR =>
    "🔴 <b>HTTP Ошибка</b>\n\n📍 " ++ name ++ "\n🔗 " ++ url ++
      "\n\nКод ответа: " ++ statusCodeText status_code ++ durationPart duration_ms
  | .TIMEOUT =>
    "⏱️ <b>Таймаут</b>\n\n📍 " ++ name ++ "\n🔗 " ++ url ++
      "\n\nСайт не ответил в течение установленного времени ожидания."
  | .CONNECTION_ERROR =>
    "🔌 <b>Ошибка подключения</b>\n\n📍 " ++ name ++ "\n🔗 " ++ url ++
      "\n\nНе удалось установить соединение с сервером.\n" ++
      "Возможные причины: сервер недоступен, проблемы с DNS, сеть."
  | .REQUEST_ERROR =>
    "❌ <b>Ошибка запроса</b>\n\n📍 " ++ name ++ "\n🔗 " ++ url ++
      "\n\nПроизошла ошибка при выполнении запроса:\n" ++
      strOrDefault error "Unknown Error"
  | .RECOVERY =>
    "⚠️ Проблема с мониторингом " ++ url

/-- The dict returned by `send_alert_http_error` (src/worker/main.py lines
68-119): a skip result, or a sent/failed result that also records the
message handed to the notifier and the chat it was addressed to. -/
inductive AlertJobResult where
  | skipped (reason : String)
  | delivered (sent : Bool) (message : String) (chat_id : Nat)
  deriving Repr, DecidableEq

/-- The most recent ResultLog row for a monitor: `ORDER BY start_time DESC
LIMIT 1` over the rows with this monitor_id (src/worker/main.py lines
91-98). Ties on `start_time` keep the earlier row of the list. -/
def latestLog (logs : List ResultLog) (monitor_id : Nat) : Option ResultLog :=
  (logs.filter (fun l => l.monitor_id = monitor_id)).foldl
    (fun acc l =>
      match acc with
      | none => some l
      | some a => if a.start_time < l.start_time then some l else some a)
    none

/-- `send_alert_http_error` (src/worker/main.py lines 68-119): join the
monitor with its owning user; skip when the join is empty or the user has
no linked Telegram chat — the guard `if not user.telegram_chat_id` is a
Python truthiness test, so a NULL chat id and a chat id of 0 both skip;
otherwise fetch the latest log row (possibly absent), build the HTTP-error
message from its status code and duration (both `None` when there is no log
row), and send it. Delivery success of the external Telegram call is passed
in as `sendOk`. -/
def send_alert_http_error (monitors : List Monitor) (users : List User)
    (logs : List ResultLog) (monitor_id : Nat) (sendOk : Bool) :
    AlertJobResult :=
  match (monitors.filter (fun m => m.id = monitor_id)).head? with
  | none => .skipped "not_found"
  | some monitor =>
    match (users.filter (fun u => u.id = monitor.user_id)).head? with
    | none => .skipped "not_found"
    | some user =>
      match user.telegram_chat_id with
      | none => .skipped "no_telegram"
      | some chat =>
        if chat = 0 then .skipped "no_telegram"
        else
          let last_log := latestLog logs monitor_id
          let message := get_predefined_message .HTTP_ERROR
            ((monitor.name).getD "") monitor.url none
            (last_log.bind (·.status_code)) (last_log.map (·.duration_ms))
          .delivered sendOk message chat

/-! ### Concrete tables used by counterexamples and witnesses -/

/-- An active monitor with interval 60 s, due since the epoch. -/
def mkDueMonitor (i : Nat) : Monitor :=
  ⟨i, 0, none, "u", "GET", none, none, 60, true, 0, none⟩

/-- A table of 101 active due monitors: one more than the scheduler's
`.limit(100)` batch ceiling. -/
def bigTable : List Monitor := (List.range 101).map mkDueMonitor

/-- A single active monitor, due at timestamp 0, interval 60 s. -/
def lateMonitor : Monitor := mkDueMonitor 1

/-- An inactive monitor that is long past due. -/
def pausedMonitor : Monitor :=
  ⟨5, 0, none, "u", "GET", none, none, 60, false, 0, none⟩

/-- An active monitor with id 2 used as a witness row. -/
def witMonitor : Monitor :=
  ⟨2, 0, none, "u", "GET", none, none, 60, true, 100000, none⟩

/-- An active monitor whose next_check_at is exactly a minute boundary. -/
def onTimeMonitor : Monitor :=
  ⟨3, 0, none, "u", "GET", none, none, 60, true, 120000, none⟩

/-! ### Helper lemmas about the scheduler's batch of row updates -/

/-- Effect of the whole tick's sequence of UPDATE statements on a single
row: apply each selected monitor's guarded next_check_at assignment in
order. -/
def applyUpdates (now : Nat) (sel : List Monitor) (r : Monitor) : Monitor :=
  sel.foldl
    (fun r m =>
      if r.id = m.id then { r with next_check_at := get_next_aligned_time now m.interval }
      else r)
    r

theorem applyUpdates_nil (now : Nat) (r : Monitor) :
    applyUpdates now [] r = r := rfl

theorem applyUpdates_cons (now : Nat) (m : Monitor) (sel : List Monitor)
    (r : Monitor) :
    applyUpdates now (m :: sel) r
      = applyUpdates now sel
          (if r.id = m.id then
            { r with next_check_at := get_next_aligned_time now m.interval }
          else r) := rfl

theorem foldl_setNextCheckAt (now : Nat) (sel : List Monitor)
    (rows : List Monitor) :
    sel.foldl
      (fun rows m => setNextCheckAt rows m.id (get_next_aligned_time now m.interval))
      rows
    = rows.map (applyUpdates now sel) := by
  induction sel generalizing rows with
  | nil =>
    rw [List.foldl_nil]
    exact (List.map_id' rows).symm
  | cons m sel ih =>
    rw [List.foldl_cons, ih, setNextCheckAt, List.map_map]
    exact List.map_congr_left (fun r _ => (applyUpdates_cons now m sel r).symm)

theorem scheduler_fst_eq_map (now : Nat) (monitors : List Monitor) :
    (scheduler now monitors).1
      = monitors.map (applyUpdates now (selectedMonitors now monitors)) := by
  simp only [scheduler]
  exact foldl_setNextCheckAt now _ monitors

theorem applyUpdates_id (now : Nat) (sel : List Monitor) (r : Monitor) :
    (applyUpdates now sel r).id = r.id := by
  induction sel generalizing r with
  | nil => rfl
  | cons m sel ih =>
    rw [applyUpdates_cons]
    by_cases h : r.id = m.id
    · rw [if_pos h, ih]
    · rw [if_neg h]
      exact ih r

theorem applyUpdates_not_mem (now : Nat) (sel : List Monitor) (r : Monitor)
    (h : ∀ m ∈ sel, r.id ≠ m.id) : applyUpdates now sel r = r := by
  induction sel with
  | nil => rfl
  | cons m sel ih =>
    rw [applyUpdates_cons, if_neg (h m (List.mem_cons_self _ _))]
    exact ih (fun m' hm' => h m' (List.mem_cons_of_mem _ hm'))

theorem applyUpdates_unique_mem (now : Nat) (sel : List Monitor)
    (hsel : (sel.map Monitor.id).Nodup) (m : Monitor) (hm : m ∈ sel)
    (r : Monitor) (hr : r.id = m.id) :
    applyUpdates now sel r
      = { r with next_check_at := get_next_aligned_time now m.interval } := by
  induction sel generalizing r with
  | nil => cases hm
  | cons a sel ih =>
    rw [List.map_cons, List.nodup_cons] at hsel
    rw [applyUpdates_cons]
    rcases List.mem_cons.mp hm with rfl | hm'
    · rw [if_pos hr]
      apply applyUpdates_not_mem
      intro m' hm' hid
      have : m.id ∈ sel.map Monitor.id := by
        rw [show m.id = m'.id from hr ▸ hid]
        exact List.mem_map_of_mem Monitor.id hm'
      exact hsel.1 this
    · have hne : r.id ≠ a.id := by
        intro hid
        have : a.id ∈ sel.map Monitor.id := by
          rw [show a.id = m.id from hid ▸ hr]
          exact List.mem_map_of_mem Monitor.id hm'
        exact hsel.1 this
      rw [if_neg hne]
      exact ih hsel.2 hm' r hr

theorem selectedMonitors_sublist (now : Nat) (monitors : List Monitor) :
    (selectedMonitors now monitors).Sublist monitors :=
  (List.take_sublist _ _).trans (List.filter_sublist _)

theorem selectedMonitors_nodup_ids (now : Nat) (monitors : List Monitor)
    (h : (monitors.map Monitor.id).Nodup) :
    ((selectedMonitors now monitors).map Monitor.id).Nodup :=
  h.sublist ((selectedMonitors_sublist now monitors).map Monitor.id)

theorem selectedMonitors_active (now : Nat) (monitors : List Monitor)
    (m : Monitor) (hm : m ∈ selectedMonitors now monitors) :
    m.is_active = true ∧ m.next_check_at ≤ now := by
  have hdue : isDue now m = true := by
    have := (List.take_sublist 100 _).subset hm
    exact (List.mem_filter.mp this).2
  simpa [isDue, Bool.and_eq_true, decide_eq_true_eq] using hdue

theorem mem_selectedMonitors_of_due (now : Nat) (monitors : List Monitor)
    (m : Monitor) (hm : m ∈ monitors) (hdue : isDue now m = true)
    (hlen : (monitors.filter (isDue now)).length ≤ 100) :
    m ∈ selectedMonitors now monitors := by
  unfold selectedMonitors
  rw [List.take_of_length_le hlen]
  exact List.mem_filter.mpr ⟨hm, hdue⟩

theorem id_injective_of_nodup (monitors : List Monitor)
    (h : (monitors.map Monitor.id).Nodup) (a b : Monitor)
    (ha : a ∈ monitors) (hb : b ∈ monitors) (hid : a.id = b.id) : a = b :=
  List.inj_on_of_nodup_map h ha hb hid

theorem get_next_aligned_time_gt (now : Nat) (interval : Nat)
    (h : 60 ≤ interval) : now < get_next_aligned_time now interval := by
  unfold get_next_aligned_time alignToMinute
  omega

/-- The row a scheduler tick leaves behind for a dispatched monitor. -/
theorem scheduler_row_of_selected (now : Nat) (monitors : List Monitor)
    (hnodup : (monitors.map Monitor.id).Nodup) (m : Monitor)
    (hm : m ∈ monitors) (hsel : m ∈ selectedMonitors now monitors) :
    ∀ r ∈ (scheduler now monitors).1, r.id = m.id →
      r = { m with next_check_at := get_next_aligned_time now m.interval } := by
  intro r hr hrid
  rw [scheduler_fst_eq_map] at hr
  rcases List.mem_map.mp hr with ⟨r0, hr0, rfl⟩
  have hid0 : r0.id = m.id := (applyUpdates_id _ _ _).symm.trans hrid
  have heq : r0 = m := id_injective_of_nodup monitors hnodup r0 m hr0 hm hid0
  have h2 := applyUpdates_unique_mem now _
    (selectedMonitors_nodup_ids now monitors hnodup) m hsel r0 hid0
  rw [h2, heq]

theorem scheduler_snd_eq (now : Nat) (monitors : List Monitor) :
    (scheduler now monitors).2
      = (selectedMonitors now monitors).map (fun m => Job.check_monitor m.id) := rfl

theorem filter_id_eq_nil (t : List Monitor) (i : Nat)
    (h : ∀ r ∈ t, r.id ≠ i) : t.filter (fun r => r.id = i) = [] := by
  induction t with
  | nil => rfl
  | cons a t ih =>
    rw [List.filter_cons, if_neg]
    · exact ih (fun r hr => h r (List.mem_cons_of_mem _ hr))
    · simp only [decide_eq_true_eq]
      exact h a (List.mem_cons_self _ _)

theorem filter_id_eq_singleton (monitors : List Monitor)
    (hnodup : (monitors.map Monitor.id).Nodup) (m : Monitor)
    (hm : m ∈ monitors) :
    monitors.filter (fun r => r.id = m.id) = [m] := by
  induction monitors with
  | nil => cases hm
  | cons a t ih =>
    rw [List.map_cons, List.nodup_cons] at hnodup
    rcases List.mem_cons.mp hm with rfl | hm'
    · rw [List.filter_cons, if_pos (by simp)]
      rw [filter_id_eq_nil t m.id]
      intro r hr hid
      exact hnodup.1 (hid ▸ List.mem_map_of_mem Monitor.id hr)
    · have hne : a.id ≠ m.id := by
        intro hid
        exact hnodup.1 (hid ▸ List.mem_map_of_mem Monitor.id hm')
      rw [List.filter_cons, if_neg (by simpa using hne)]
      exact ih hnodup.2 hm'

theorem filter_id_map_applyUpdates (now : Nat) (sel : List Monitor) (i : Nat)
    (ms : List Monitor) :
    (ms.map (applyUpdates now sel)).filter (fun r => r.id = i)
      = (ms.filter (fun r => r.id = i)).map (applyUpdates now sel) := by
  induction ms with
  | nil => rfl
  | cons a t ih =>
    rw [List.map_cons, List.filter_cons, List.filter_cons, applyUpdates_id]
    by_cases h : a.id = i
    · rw [if_pos (by simpa using h), if_pos (by simpa using h), List.map_cons, ih]
    · rw [if_neg (by simpa using h), if_neg (by simpa using h), ih]

theorem selected_id_ne_of_inactive (now : Nat) (monitors : List Monitor)
    (hnodup : (monitors.map Monitor.id).Nodup) (m : Monitor)
    (hm : m ∈ monitors) (hin : m.is_active = false) :
    ∀ m' ∈ selectedMonitors now monitors, m'.id ≠ m.id := by
  intro m' hm' hid
  have hmem : m' ∈ monitors := (selectedMonitors_sublist now monitors).subset hm'
  have : m' = m := id_injective_of_nodup monitors hnodup m' m hmem hm hid
  have hact := (selectedMonitors_active now monitors m' hm').1
  rw [this, hin] at hact
  cases hact

/-! ### Claim theorems -/

/-- Claim C1, amended: for every active target with interval I ≥ 60 s that
is due at a scheduler tick and is among the up-to-100 due targets the tick
selects — which is all due targets whenever at most 100 are due, by
`mem_selectedMonitors_of_due` — after the tick the target's next_check_at
equals the current time truncated to the minute plus I, that value is
strictly greater than now, and a probe job for the target was enqueued. -/
theorem claim_C1_tick_aligns_next_check (now : Nat) (monitors : List Monitor)
    (m : Monitor) (hnodup : (monitors.map Monitor.id).Nodup)
    (hm : m ∈ monitors) (hsel : m ∈ selectedMonitors now monitors)
    (hint : 60 ≤ m.interval) :
    (scheduler now monitors).1.filter (fun r => r.id = m.id)
        = [{ m with next_check_at := alignToMinute now + m.interval * 1000 }]
    ∧ Job.check_monitor m.id ∈ (scheduler now monitors).2
    ∧ now < alignToMinute now + m.interval * 1000 := by
  refine ⟨?_, ?_, ?_⟩
  · rw [scheduler_fst_eq_map, filter_id_map_applyUpdates,
      filter_id_eq_singleton monitors hnodup m hm, List.map_cons, List.map_nil,
      applyUpdates_unique_mem now _
        (selectedMonitors_nodup_ids now monitors hnodup) m hsel m rfl]
    rfl
  · rw [scheduler_snd_eq]
    exact List.mem_map_of_mem _ hsel
  · exact get_next_aligned_time_gt now m.interval hint

theorem claim_C1_witness :
    (scheduler 130000 [witMonitor]).1.filter (fun r => r.id = witMonitor.id)
        = [{ witMonitor with
              next_check_at := alignToMinute 130000 + witMonitor.interval * 1000 }]
    ∧ Job.check_monitor witMonitor.id ∈ (scheduler 130000 [witMonitor]).2
    ∧ 130000 < alignToMinute 130000 + witMonitor.interval * 1000 :=
  claim_C1_tick_aligns_next_check 130000 [witMonitor] witMonitor
    (by decide) (by decide) (by decide) (by decide)

set_option maxRecDepth 20000

/-- Counterexample to claim C1 as stated: with 101 active due targets the
tick's `.limit(100)` leaves one due target undispatched — its next_check_at
stays at its old value instead of becoming the aligned time plus interval,
and no probe job is enqueued for it. -/
theorem claim_C1_counterexample :
    isDue 60000 (mkDueMonitor 100) = true
    ∧ mkDueMonitor 100 ∈ bigTable
    ∧ 60 ≤ (mkDueMonitor 100).interval
    ∧ (scheduler 60000 bigTable).1.filter (fun r => r.id = 100)
        = [mkDueMonitor 100]
    ∧ (mkDueMonitor 100).next_check_at
        ≠ alignToMinute 60000 + (mkDueMonitor 100).interval * 1000
    ∧ Job.check_monitor 100 ∉ (scheduler 60000 bigTable).2 := by
  decide

/-- Claim C2, amended: each time a target is dispatched by a scheduler tick
its next_check_at is set to the tick time truncated to the minute plus its
interval; this equals the old next_check_at plus the interval exactly when
the old next_check_at was the aligned tick time (i.e. the target was
dispatched on schedule), but not in general. -/
theorem claim_C2_dispatch_advances_by_interval (now : Nat)
    (monitors : List Monitor) (m : Monitor)
    (hnodup : (monitors.map Monitor.id).Nodup) (hm : m ∈ monitors)
    (hsel : m ∈ selectedMonitors now monitors) :
    (scheduler now monitors).1.filter (fun r => r.id = m.id)
        = [{ m with next_check_at := alignToMinute now + m.interval * 1000 }]
    ∧ (m.next_check_at = alignToMinute now →
        alignToMinute now + m.interval * 1000
          = m.next_check_at + m.interval * 1000) := by
  constructor
  · rw [scheduler_fst_eq_map, filter_id_map_applyUpdates,
      filter_id_eq_singleton monitors hnodup m hm, List.map_cons, List.map_nil,
      applyUpdates_unique_mem now _
        (selectedMonitors_nodup_ids now monitors hnodup) m hsel m rfl]
    rfl
  · intro h
    rw [h]

theorem claim_C2_witness :
    (scheduler 120000 [onTimeMonitor]).1.filter (fun r => r.id = 3)
        = [{ onTimeMonitor with
              next_check_at := alignToMinute 120000 + onTimeMonitor.interval * 1000 }]
    ∧ alignToMinute 120000 + onTimeMonitor.interval * 1000
        = onTimeMonitor.next_check_at + onTimeMonitor.interval * 1000 :=
  ⟨(claim_C2_dispatch_advances_by_interval 120000 [onTimeMonitor]
      onTimeMonitor (by decide) (by decide) (by decide)).1,
   (claim_C2_dispatch_advances_by_interval 120000 [onTimeMonitor]
      onTimeMonitor (by decide) (by decide) (by decide)).2 (by decide)⟩

/-- Counterexample to claim C2 as stated: a target due since timestamp 0
dispatched at tick time 330000 ms gets next_check_at 360000 ms (the aligned
tick time plus its 60 s interval), not its old next_check_at plus the
interval (which would be 60000 ms). -/
theorem claim_C2_counterexample :
    lateMonitor ∈ selectedMonitors 330000 [lateMonitor]
    ∧ (scheduler 330000 [lateMonitor]).1.filter (fun r => r.id = 1)
        = [{ lateMonitor with next_check_at := 360000 }]
    ∧ (360000 : Nat) ≠ lateMonitor.next_check_at + lateMonitor.interval * 1000 := by
  decide

/-- Claim C5: a target with is_active = false is never selected by a
scheduler tick, regardless of its next_check_at: no probe job for its id is
enqueued and its row is left completely unchanged. -/
theorem claim_C5_inactive_never_dispatched (now : Nat)
    (monitors : List Monitor) (m : Monitor)
    (hnodup : (monitors.map Monitor.id).Nodup) (hm : m ∈ monitors)
    (hin : m.is_active = false) :
    Job.check_monitor m.id ∉ (scheduler now monitors).2
    ∧ (scheduler now monitors).1.filter (fun r => r.id = m.id) = [m] := by
  constructor
  · rw [scheduler_snd_eq]
    intro hmem
    rcases List.mem_map.mp hmem with ⟨m', hm', heq⟩
    injection heq with hid
    exact selected_id_ne_of_inactive now monitors hnodup m hm hin m' hm' hid
  · rw [scheduler_fst_eq_map, filter_id_map_applyUpdates,
      filter_id_eq_singleton monitors hnodup m hm, List.map_cons, List.map_nil,
      applyUpdates_not_mem now _ m
        (fun m' hm' h =>
          selected_id_ne_of_inactive now monitors hnodup m hm hin m' hm' h.symm)]

theorem claim_C5_witness :
    Job.check_monitor pausedMonitor.id ∉ (scheduler 500000 [pausedMonitor]).2
    ∧ (scheduler 500000 [pausedMonitor]).1.filter
        (fun r => r.id = pausedMonitor.id) = [pausedMonitor] :=
  claim_C5_inactive_never_dispatched 500000 [pausedMonitor] pausedMonitor
    (by decide) (by decide) (by decide)

/-- The non-skip path of `check_monitor` in one equation: when the monitor
lookup succeeds and the monitor is active, the effect is the status update,
one appended log row, the alert-enqueue decision and the completed return. -/
theorem check_monitor_run (monitors : List Monitor) (logs : List ResultLog)
    (monitor_id : Nat) (probe : ProbeResult) (start dur : Nat) (m : Monitor)
    (hfind : (monitors.filter (fun r => r.id = monitor_id)).head? = some m)
    (hact : m.is_active = true) :
    check_monitor monitors logs monitor_id probe start dur =
      ⟨setLastCheckStatus monitors monitor_id (probeIsSuccess probe),
       logs ++ [⟨monitor_id, start, dur, probeStatusCode probe,
                 probeIsSuccess probe, (errorInfo probe).map (·.2)⟩],
       (match errorInfo probe with
        | some (a, msg) => [Job.send_alert_exception monitor_id a (some msg)]
        | none =>
          if !probeIsSuccess probe && (probeStatusCode probe).isSome then
            [Job.send_alert_http_error monitor_id]
          else []),
       .completed monitor_id m.url (probeIsSuccess probe)
         (probeStatusCode probe) dur⟩ := by
  rw [check_monitor, hfind]
  simp only [hact, Bool.not_true]
  rfl

/-- Claim C3, amended: for a probe that receives an HTTP response, the
recorded success flag is true iff 200 ≤ status_code < 400; exactly one
HTTP-error alert job carrying only the target id is enqueued whenever the
success flag is false — that is, for status_code ≥ 400 and also for
status_code < 200 — and no alert job of any kind is enqueued when
200 ≤ status_code < 400. -/
theorem claim_C3_response_success_and_alert (monitors : List Monitor)
    (logs : List ResultLog) (monitor_id : Nat) (c : Nat) (start dur : Nat)
    (m : Monitor)
    (hfind : (monitors.filter (fun r => r.id = monitor_id)).head? = some m)
    (hact : m.is_active = true) :
    (check_monitor monitors logs monitor_id (.responded c) start dur).logs
        = logs ++ [{ monitor_id := monitor_id, start_time := start,
                     duration_ms := dur, status_code := some c,
                     is_success := decide (200 ≤ c) && decide (c < 400),
                     error_message := none }]
    ∧ (check_monitor monitors logs monitor_id (.responded c) start dur).enqueued
        = (if 200 ≤ c ∧ c < 400 then [] else [Job.send_alert_http_error monitor_id]) := by
  rw [check_monitor_run monitors logs monitor_id (.responded c) start dur m hfind hact]
  constructor
  · rfl
  · show (if (!probeIsSuccess (.responded c) &&
          (probeStatusCode (.responded c)).isSome) = true then
        [Job.send_alert_http_error monitor_id] else [])
      = (if 200 ≤ c ∧ c < 400 then [] else [Job.send_alert_http_error monitor_id])
    by_cases h : 200 ≤ c ∧ c < 400
    · rw [if_pos h]
      simp [probeIsSuccess, probeStatusCode, h.1, h.2]
    · rw [if_neg h]
      have hP : probeIsSuccess (.responded c) = false := by
        by_cases h1 : 200 ≤ c
        · have h2 : ¬ c < 400 := fun h2 => h ⟨h1, h2⟩
          simp [probeIsSuccess, h1, h2]
        · simp [probeIsSuccess, h1]
      simp [hP, probeStatusCode]

theorem claim_C3_witness :
    (check_monitor [mkDueMonitor 8] [] 8 (.responded 503) 0 5).logs
        = [] ++ [{ monitor_id := 8, start_time := 0, duration_ms := 5,
                   status_code := some 503,
                   is_success := decide (200 ≤ 503) && decide (503 < 400),
                   error_message := none }]
    ∧ (check_monitor [mkDueMonitor 8] [] 8 (.responded 503) 0 5).enqueued
        = (if 200 ≤ 503 ∧ 503 < 400 then [] else [Job.send_alert_http_error 8]) :=
  claim_C3_response_success_and_alert [mkDueMonitor 8] [] 8 503 0 5
    (mkDueMonitor 8) (by decide) (by decide)

/-- Counterexample to claim C3 as stated: a received response with
status_code 100 (< 400) still enqueues an HTTP-error alert job, because the
code's guard is `not is_success and status_code is not None`, not
`status_code >= 400`. -/
theorem claim_C3_counterexample :
    (100 : Nat) < 400
    ∧ (check_monitor [mkDueMonitor 9] [] 9 (.responded 100) 0 5).enqueued
        = [Job.send_alert_http_error 9] := by
  decide

/-- Claim C4: a probe that ends in a timeout creates exactly one outcome
record, with status_code null and success false (and the timeout error
string), and enqueues exactly one exception-alert job carrying the
classification "timeout" and the error string. -/
theorem claim_C4_timeout_record_and_alert (monitors : List Monitor)
    (logs : List ResultLog) (monitor_id : Nat) (start dur : Nat) (m : Monitor)
    (hfind : (monitors.filter (fun r => r.id = monitor_id)).head? = some m)
    (hact : m.is_active = true) :
    (check_monitor monitors logs monitor_id .timeout start dur).logs
        = logs ++ [{ monitor_id := monitor_id, start_time := start,
                     duration_ms := dur, status_code := none,
                     is_success := false,
                     error_message :=
                       some "Timeout: the site did not respond within 10 seconds" }]
    ∧ (check_monitor monitors logs monitor_id .timeout start dur).enqueued
        = [Job.send_alert_exception monitor_id "timeout"
            (some "Timeout: the site did not respond within 10 seconds")] := by
  rw [check_monitor_run monitors logs monitor_id .timeout start dur m hfind hact]
  exact ⟨rfl, rfl⟩

theorem claim_C4_witness :
    (check_monitor [mkDueMonitor 10] [] 10 .timeout 7 9001).logs
        = [] ++ [{ monitor_id := 10, start_time := 7, duration_ms := 9001,
                   status_code := none, is_success := false,
                   error_message :=
                     some "Timeout: the site did not respond within 10 seconds" }]
    ∧ (check_monitor [mkDueMonitor 10] [] 10 .timeout 7 9001).enqueued
        = [Job.send_alert_exception 10 "timeout"
            (some "Timeout: the site did not respond within 10 seconds")] :=
  claim_C4_timeout_record_and_alert [mkDueMonitor 10] [] 10 7 9001
    (mkDueMonitor 10) (by decide) (by decide)

/-- Claim C6: recording a completed probe's outcome touches only the
target's last_check_status — every other field of every monitor row, in
particular next_check_at, is unchanged; the row whose id matches gets
last_check_status set to the probe's success flag, all other rows are
untouched. -/
theorem claim_C6_record_only_last_check_status (monitors : List Monitor)
    (logs : List ResultLog) (monitor_id : Nat) (probe : ProbeResult)
    (start dur : Nat) (m : Monitor)
    (hfind : (monitors.filter (fun r => r.id = monitor_id)).head? = some m)
    (hact : m.is_active = true) :
    List.Forall₂
      (fun r r' =>
        r'.id = r.id ∧ r'.user_id = r.user_id ∧ r'.name = r.name
        ∧ r'.url = r.url ∧ r'.method = r.method ∧ r'.headers = r.headers
        ∧ r'.body = r.body ∧ r'.interval = r.interval
        ∧ r'.is_active = r.is_active ∧ r'.next_check_at = r.next_check_at
        ∧ r'.last_check_status
            = (if r.id = monitor_id then some (probeIsSuccess probe)
               else r.last_check_status))
      monitors
      (check_monitor monitors logs monitor_id probe start dur).monitors := by
  rw [check_monitor_run monitors logs monitor_id probe start dur m hfind hact]
  show List.Forall₂ _ monitors (monitors.map _)
  rw [List.forall₂_map_right_iff, List.forall₂_same]
  intro r _
  by_cases h : r.id = monitor_id
  · rw [if_pos h, if_pos h]
    exact ⟨rfl, rfl, rfl, rfl, rfl, rfl, rfl, rfl, rfl, rfl, rfl⟩
  · rw [if_neg h, if_neg h]
    exact ⟨rfl, rfl, rfl, rfl, rfl, rfl, rfl, rfl, rfl, rfl, rfl⟩

theorem claim_C6_witness :
    List.Forall₂
      (fun r r' =>
        r'.id = r.id ∧ r'.user_id = r.user_id ∧ r'.name = r.name
        ∧ r'.url = r.url ∧ r'.method = r.method ∧ r'.headers = r.headers
        ∧ r'.body = r.body ∧ r'.interval = r.interval
        ∧ r'.is_active = r.is_active ∧ r'.next_check_at = r.next_check_at
        ∧ r'.last_check_status
            = (if r.id = 11 then some (probeIsSuccess (.responded 200))
               else r.last_check_status))
      [mkDueMonitor 11, pausedMonitor]
      (check_monitor [mkDueMonitor 11, pausedMonitor] [] 11
        (.responded 200) 0 5).monitors :=
  claim_C6_record_only_last_check_status [mkDueMonitor 11, pausedMonitor]
    [] 11 (.responded 200) 0 5 (mkDueMonitor 11) (by decide) (by decide)

/-- Claim C7: every target-side probe outcome — a response of any status,
a timeout, a connection error or any other transport error — is handled
inside check_monitor: the job returns the normal completed result in all
four cases and never surfaces a fault to the queue. -/
theorem claim_C7_target_failures_return_completed (monitors : List Monitor)
    (logs : List ResultLog) (monitor_id : Nat) (probe : ProbeResult)
    (start dur : Nat) (m : Monitor)
    (hfind : (monitors.filter (fun r => r.id = monitor_id)).head? = some m)
    (hact : m.is_active = true) :
    (check_monitor monitors logs monitor_id probe start dur).ret
      = .completed monitor_id m.url (probeIsSuccess probe)
          (probeStatusCode probe) dur := by
  rw [check_monitor_run monitors logs monitor_id probe start dur m hfind hact]

theorem claim_C7_witness :
    (check_monitor [mkDueMonitor 12] [] 12 (.connectError "refused") 0 5).ret
      = .completed 12 (mkDueMonitor 12).url
          (probeIsSuccess (.connectError "refused"))
          (probeStatusCode (.connectError "refused")) 5 :=
  claim_C7_target_failures_return_completed [mkDueMonitor 12] [] 12
    (.connectError "refused") 0 5 (mkDueMonitor 12) (by decide) (by decide)

/-- Claim C8, amended: the message catalog holds a fixed template for
exactly four alert types — HTTP error, timeout, connection error and
request error, pairwise distinct — while the fifth alert type, recovery,
has no entry of its own and formats as the generic fallback message. -/
theorem claim_C8_templates :
    (∀ t : AlertType, PREDEFINED_MESSAGES t = none ↔ t = .RECOVERY)
    ∧ ([AlertType.HTTP_ERROR, AlertType.TIMEOUT, AlertType.CONNECTION_ERROR,
        AlertType.REQUEST_ERROR].map PREDEFINED_MESSAGES).Nodup
    ∧ (∀ name url e sc d,
        get_predefined_message .RECOVERY name url e sc d
          = "⚠️ Проблема с мониторингом " ++ url) := by
  refine ⟨?_, by decide, ?_⟩
  · intro t
    cases t <;> simp [PREDEFINED_MESSAGES]
  · intro name url e sc d
    rfl

/-- Counterexample to claim C8 as stated: the recovery alert type has no
fixed template of its own — the catalog lookup yields nothing and the
formatted message is the generic fallback, which ignores the monitor
name. -/
theorem claim_C8_counterexample :
    PREDEFINED_MESSAGES AlertType.RECOVERY = none
    ∧ get_predefined_message .RECOVERY "MySite" "u" none none none
        = "⚠️ Проблема с мониторингом u" := by
  exact ⟨rfl, rfl⟩

theorem str_append_assoc (a b c : String) : a ++ b ++ c = a ++ (b ++ c) := by
  apply String.ext
  simp [String.data_append]

/-- Claim C9: an HTTP-error alert job whose target exists and whose owner
has a linked Telegram chat (a truthy chat id, i.e. nonzero — a zero chat id
is falsy to the guard and skips), but for which no outcome record exists,
does not skip or fail: it formats the HTTP-error message with a question
mark in place of the status code and no response-time line, and hands it to
the notifier. -/
theorem claim_C9_alert_without_log (monitors : List Monitor)
    (users : List User) (logs : List ResultLog) (monitor_id : Nat)
    (sendOk : Bool) (monitor : Monitor) (user : User) (chat : Nat)
    (hmon : (monitors.filter (fun r => r.id = monitor_id)).head? = some monitor)
    (huser : (users.filter (fun u => u.id = monitor.user_id)).head? = some user)
    (hchat : user.telegram_chat_id = some chat) (hchat0 : chat ≠ 0)
    (hnolog : logs.filter (fun l => l.monitor_id = monitor_id) = []) :
    send_alert_http_error monitors users logs monitor_id sendOk
      = .delivered sendOk
          ("🔴 <b>HTTP Ошибка</b>\n\n📍 "
            ++ strOrDefault (some ((monitor.name).getD "")) "Noname"
            ++ "\n🔗 " ++ monitor.url ++ "\n\nКод ответа: ?")
          chat := by
  have hll : latestLog logs monitor_id = none := by
    rw [latestLog, hnolog]
    rfl
  simp only [send_alert_http_error, hmon, huser, hchat, hll, if_neg hchat0]
  have hmsg : get_predefined_message .HTTP_ERROR ((monitor.name).getD "")
      monitor.url none none none
      = "🔴 <b>HTTP Ошибка</b>\n\n📍 "
        ++ strOrDefault (some ((monitor.name).getD "")) "Noname"
        ++ "\n🔗 " ++ monitor.url ++ "\n\nКод ответа: " ++ "?" ++ "" := rfl
  rw [show (none : Option ResultLog).bind (fun a => a.status_code) = none from rfl,
    show Option.map (fun x => x.duration_ms) (none : Option ResultLog) = none from rfl,
    hmsg, String.append_empty, str_append_assoc]
  rfl

theorem claim_C9_witness :
    send_alert_http_error [mkDueMonitor 13] [⟨0, "bob", some 42⟩]
        [⟨14, 0, 5, some 500, false, none⟩] 13 true
      = .delivered true
          ("🔴 <b>HTTP Ошибка</b>\n\n📍 "
            ++ strOrDefault (some (((mkDueMonitor 13).name).getD "")) "Noname"
            ++ "\n🔗 " ++ (mkDueMonitor 13).url ++ "\n\nКод ответа: ?")
          42 :=
  claim_C9_alert_without_log [mkDueMonitor 13] [⟨0, "bob", some 42⟩]
    [⟨14, 0, 5, some 500, false, none⟩] 13 true (mkDueMonitor 13)
    ⟨0, "bob", some 42⟩ 42 (by decide) (by decide) (by decide) (by decide)
    (by decide)

/-- Claim C10: in the HTTP-error message a recorded duration of exactly 0 ms
and a status code of exactly 0 render the same as absent values — both are
falsy to the formatter, so the duration line is omitted and the status code
shows as a question mark. -/
theorem claim_C10_zero_renders_as_null (name url : String)
    (err : Option String) :
    (get_predefined_message .HTTP_ERROR name url err (some 0) (some 0)
        = get_predefined_message .HTTP_ERROR name url err none none)
    ∧ get_predefined_message .HTTP_ERROR "n" "u" none (some 0) (some 0)
        = "🔴 <b>HTTP Ошибка</b>\n\n📍 n\n🔗 u\n\nКод ответа: ?" := by
  exact ⟨rfl, rfl⟩

end Watchdog
